import Mathlib

/-!
The blue/green demo service (`app/server.js`).

A shallow embedding of the Express application in `app/server.js` and the
properties of its three GET routes.

The program reads three variables of the process environment once, when the
module is loaded, registers the JSON body middleware and three GET routes, and
listens.  The embedding has three layers:

* start-up: `PORT`, `VERSION`, `BUILD_NUMBER` (lines 3-5), computed from the
  process environment with the truthiness rule of the `||` operator;
* the handlers of lines 9-29, which build the object handed to `res.json`;
* the application pipeline `serve`: the `express.json()` middleware of line 7,
  then the three routes in registration order, then the not-found fallback.

What the program takes from its libraries is stated next to each definition:
the default route matcher of the Express 4 router (`caseSensitive` and `strict`
are both off, nothing in the program turns them on), and the default options
of `express.json()` (`strict` parsing).
-/

set_option autoImplicit false

namespace Server

/-! ## Process environment and start-up configuration -/

/-- The object `process.env`: a variable is unset (`undefined`) or holds a string. -/
abbrev ProcessEnv := String → Option String

/-- The environment in which no variable is set. -/
def emptyEnv : ProcessEnv := fun _ => none

/-- The environment `env` with the variable `name` set to `value`. -/
def setVar (env : ProcessEnv) (name value : String) : ProcessEnv :=
  fun k => if k = name then some value else env k

/-- The environment `env` with the variable `name` removed. -/
def unsetVar (env : ProcessEnv) (name : String) : ProcessEnv :=
  fun k => if k = name then none else env k

/-- Truthiness of `process.env.X`: `undefined` and the empty string are falsy,
every other string is truthy. -/
def truthy : Option String → Bool
  | none => false
  | some s => !(s == "")

/-- The value of `process.env.PORT || 3000`: the string of the environment when
it is truthy, the number literal otherwise. -/
inductive PortValue where
  | num (n : Nat)
  | str (s : String)
  deriving DecidableEq

/-- Line 3: `const PORT = process.env.PORT || 3000`. -/
def PORT (env : ProcessEnv) : PortValue :=
  match env "PORT" with
  | some s => if truthy (some s) then PortValue.str s else PortValue.num 3000
  | none => PortValue.num 3000

/-- Line 4: `const VERSION = process.env.VERSION || 'blue'`. -/
def VERSION (env : ProcessEnv) : String :=
  match env "VERSION" with
  | some s => if truthy (some s) then s else "blue"
  | none => "blue"

/-- Line 5: `const BUILD_NUMBER = process.env.BUILD_NUMBER || '1'`. -/
def BUILD_NUMBER (env : ProcessEnv) : String :=
  match env "BUILD_NUMBER" with
  | some s => if truthy (some s) then s else "1"
  | none => "1"

/-- The three module-level constants, fixed when the module is loaded. -/
structure Config where
  port : PortValue
  version : String
  buildNumber : String
  deriving DecidableEq

/-- Module load: the three constants are computed from the environment. -/
def start (env : ProcessEnv) : Config :=
  { port := PORT env, version := VERSION env, buildNumber := BUILD_NUMBER env }

/-! ## Requests, runtime readings and responses -/

/-- What the `express.json()` middleware finds in a request.
* `absent`: no body, or a content type other than `application/json`;
* `text s`: a body of type `application/json` that the body reader decoded to `s`;
* `unreadable status`: the body reader itself refused the body with `status`
  (unsupported charset or content encoding, body over the size limit). -/
inductive Payload where
  | absent
  | text (s : String)
  | unreadable (status : Nat)
  deriving DecidableEq

/-- A GET request as the application sees it: the path name of `req.url`, the
query string, the header list, and the body as the JSON middleware finds it. -/
structure Request where
  path : String
  query : String
  headers : List (String × String)
  payload : Payload
  deriving DecidableEq

/-- The plain request `GET path`: no query string, no headers, no body. -/
def get (path : String) : Request :=
  { path := path, query := "", headers := [], payload := Payload.absent }

/-- The readings a handler takes from the runtime while it runs, each the value
the call returned: `new Date().toISOString()`, `require('os').hostname()`,
`process.uptime()`. The uptime is a finite number of seconds, kept as a
rational. -/
structure Runtime where
  now : String
  hostname : String
  uptime : ℚ

/-- A value of a property in an object handed to `res.json`. -/
inductive JsonValue where
  | str (s : String)
  | num (x : ℚ)
  deriving DecidableEq

/-- A response body: the object given to `res.json` (properties in source
order), or the error page of the framework (not-found and middleware errors). -/
inductive Body where
  | json (fields : List (String × JsonValue))
  | errorPage
  deriving DecidableEq

/-- An HTTP response: status code and body. -/
structure Response where
  status : Nat
  body : Body
  deriving DecidableEq

/-- The call `res.json(obj)`: status 200 (never changed by the program) and `obj`. -/
def resJson (fields : List (String × JsonValue)) : Response :=
  { status := 200, body := Body.json fields }

/-- The value of property `key` in a response, when the body is a JSON object
that has it. -/
def Response.field (r : Response) (key : String) : Option JsonValue :=
  match r.body with
  | Body.json fields => (fields.find? (fun kv => kv.1 == key)).map Prod.snd
  | Body.errorPage => none

/-- The property names of a response body, in order (none for an error page). -/
def Response.keys (r : Response) : List String :=
  match r.body with
  | Body.json fields => fields.map Prod.fst
  | Body.errorPage => []

/-! ## Handlers (lines 9-29) -/

/-- Lines 9-17: the handler of `GET /`. The request is not read. -/
def getRoot (cfg : Config) (rt : Runtime) (_req : Request) : Response :=
  resJson
    [ ("message", JsonValue.str ("Hello from " ++ cfg.version ++ " environment!")),
      ("version", JsonValue.str cfg.version),
      ("build", JsonValue.str cfg.buildNumber),
      ("timestamp", JsonValue.str rt.now),
      ("hostname", JsonValue.str rt.hostname) ]

/-- Lines 19-25: the handler of `GET /health`. The request is not read. -/
def getHealth (cfg : Config) (rt : Runtime) (_req : Request) : Response :=
  resJson
    [ ("status", JsonValue.str "healthy"),
      ("version", JsonValue.str cfg.version),
      ("uptime", JsonValue.num rt.uptime) ]

/-- Lines 27-29: the handler of `GET /version`. The request is not read. -/
def getVersion (cfg : Config) (_rt : Runtime) (_req : Request) : Response :=
  resJson
    [ ("version", JsonValue.str cfg.version),
      ("build", JsonValue.str cfg.buildNumber) ]

/-! ## The pipeline: JSON middleware, routes, fallback -/

/-- Whitespace skipped by the strict check of the JSON body parser. -/
def isJsonSpace (c : Char) : Bool :=
  c == ' ' || c == '\t' || c == '\n' || c == '\r'

/-- First character of a body that is not whitespace, if any. -/
def firstchar (body : String) : Option Char :=
  (body.toList.dropWhile isJsonSpace).head?

/-- The `parse` step of `express.json()` with its default options: an empty
body is accepted; in strict mode the first non-blank character must open an
object or an array; then the text goes to `JSON.parse`, whose verdict is the
parameter `jsonParse`. The result is whether parsing succeeds. -/
def parseBody (jsonParse : String → Bool) (body : String) : Bool :=
  if body.toList = [] then true
  else if firstchar body = some '{' ∨ firstchar body = some '[' then jsonParse body
  else false

/-- Line 7, `app.use(express.json())`: `none` when the middleware calls
`next()`, `some status` when it calls `next(err)` with that status. A body
that fails to parse is refused with status 400. -/
def jsonParser (jsonParse : String → Bool) (req : Request) : Option Nat :=
  match req.payload with
  | Payload.absent => none
  | Payload.unreadable status => some status
  | Payload.text body => if parseBody jsonParse body then none else some 400

/-- A string with its ASCII capital letters replaced by small ones. -/
def lowerCase (s : String) : String :=
  String.mk (s.toList.map Char.toLower)

/-- The default matcher of a route of the Express 4 router for a literal route
path: the path is compared without regard to ASCII letter case
(`caseSensitive` off), and one trailing slash is optional (`strict` off). For a
route path `r` not ending in a slash the pattern is `^r\/?$`, for one ending in
a slash the final slash itself is optional. -/
def layerMatch (route path : String) : Bool :=
  let p := lowerCase path
  let r := lowerCase route
  if r.toList.getLast? = some '/' then p == r || p == String.mk r.toList.dropLast
  else p == r || p == r ++ "/"

/-- The response of the framework when no route answers or a middleware fails. -/
def errorResponse (status : Nat) : Response :=
  { status := status, body := Body.errorPage }

/-- One GET request through the application: the JSON middleware first, then
the routes `/`, `/health`, `/version` in registration order, then the
not-found fallback of the framework. -/
def serve (jsonParse : String → Bool) (cfg : Config) (rt : Runtime) (req : Request) :
    Response :=
  match jsonParser jsonParse req with
  | some status => errorResponse status
  | none =>
    if layerMatch "/" req.path then getRoot cfg rt req
    else if layerMatch "/health" req.path then getHealth cfg rt req
    else if layerMatch "/version" req.path then getVersion cfg rt req
    else errorResponse 404

/-! ## Serialisation of a response object -/

/-- Lower-case hexadecimal digit. -/
def hexDigit (n : Nat) : Char :=
  if n < 10 then Char.ofNat (48 + n) else Char.ofNat (87 + n)

/-- Escaping of one character inside a JSON string, as `JSON.stringify` does. -/
def quoteChar (c : Char) : List Char :=
  if c = '"' then ['\\', '"']
  else if c = '\\' then ['\\', '\\']
  else if c = '\x08' then ['\\', 'b']
  else if c = '\x0c' then ['\\', 'f']
  else if c = '\n' then ['\\', 'n']
  else if c = '\r' then ['\\', 'r']
  else if c = '\t' then ['\\', 't']
  else if c.toNat < 32 then
    ['\\', 'u', '0', '0', hexDigit (c.toNat / 16), hexDigit (c.toNat % 16)]
  else [c]

/-- A string as a JSON string literal. -/
def quoteJSONString (s : String) : String :=
  "\"" ++ String.mk (s.toList.flatMap quoteChar) ++ "\""

/-- One value as JSON text; the text of a number is left to `render`. -/
def stringifyValue (render : ℚ → String) : JsonValue → String
  | JsonValue.str s => quoteJSONString s
  | JsonValue.num x => render x

/-- The text `JSON.stringify` produces for a flat object. -/
def stringify (render : ℚ → String) (fields : List (String × JsonValue)) : String :=
  "\x7b" ++ ",".intercalate
    (fields.map fun kv => quoteJSONString kv.1 ++ ":" ++ stringifyValue render kv.2) ++ "\x7d"

/-- The body text of a response that carries a JSON object. -/
def Response.text (render : ℚ → String) (r : Response) : Option String :=
  match r.body with
  | Body.json fields => some (stringify render fields)
  | Body.errorPage => none

/-! ## Concrete inputs -/

/-- A runtime reading used in examples. -/
def rt0 : Runtime := { now := "2024-01-01T00:00:00.000Z", hostname := "pod-0", uptime := 5 }

/-- The environment of scenario 1: `VERSION=green`, `BUILD_NUMBER=42`. -/
def greenEnv : ProcessEnv := setVar (setVar emptyEnv "VERSION" "green") "BUILD_NUMBER" "42"

/-- A second runtime reading, taken later than `rt0`. -/
def rt1 : Runtime := { now := "2024-01-01T00:00:02.500Z", hostname := "pod-0", uptime := 15 / 2 }

theorem serve_root (jsonParse : String → Bool) (cfg : Config) (rt : Runtime) :
    serve jsonParse cfg rt (get "/") = getRoot cfg rt (get "/") := rfl

theorem serve_health (jsonParse : String → Bool) (cfg : Config) (rt : Runtime) :
    serve jsonParse cfg rt (get "/health") = getHealth cfg rt (get "/health") := rfl

theorem serve_version (jsonParse : String → Bool) (cfg : Config) (rt : Runtime) :
    serve jsonParse cfg rt (get "/version") = getVersion cfg rt (get "/version") := rfl

theorem VERSION_of_set (env : ProcessEnv) (v : String) (hv : v ≠ "")
    (hset : env "VERSION" = some v) : VERSION env = v := by
  simp [VERSION, hset, truthy, hv]

theorem BUILD_NUMBER_of_set (env : ProcessEnv) (b : String) (hb : b ≠ "")
    (hset : env "BUILD_NUMBER" = some b) : BUILD_NUMBER env = b := by
  simp [BUILD_NUMBER, hset, truthy, hb]

theorem VERSION_ne_empty (env : ProcessEnv) : VERSION env ≠ "" := by
  unfold VERSION
  cases h : env "VERSION" with
  | none => decide
  | some s =>
    by_cases hs : s = ""
    · subst hs; decide
    · simp [truthy, hs]

theorem BUILD_NUMBER_ne_empty (env : ProcessEnv) : BUILD_NUMBER env ≠ "" := by
  unfold BUILD_NUMBER
  cases h : env "BUILD_NUMBER" with
  | none => decide
  | some s =>
    by_cases hs : s = ""
    · subst hs; decide
    · simp [truthy, hs]

theorem start_of_unset (env : ProcessEnv) (hP : env "PORT" = none)
    (hV : env "VERSION" = none) (hB : env "BUILD_NUMBER" = none) :
    start env = { port := PortValue.num 3000, version := "blue", buildNumber := "1" } := by
  simp [start, PORT, VERSION, BUILD_NUMBER, hP, hV, hB]

theorem stringify_health_blue (render : ℚ → String) (u : ℚ) :
    stringify render [("status", JsonValue.str "healthy"), ("version", JsonValue.str "blue"),
        ("uptime", JsonValue.num u)]
      = "\x7b\"status\":\"healthy\",\"version\":\"blue\",\"uptime\":" ++ render u ++ "\x7d" := by
  apply String.ext
  simp [stringify, stringifyValue, String.intercalate, String.intercalate.go, quoteJSONString,
    quoteChar]

/-- C1, as stated, fails: with `VERSION` set to the empty string the three
routes report the version `blue`, not the empty string. -/
theorem version_field_empty_VERSION :
    (setVar emptyEnv "VERSION" "") "VERSION" = some "" ∧
    (serve (fun _ => true) (start (setVar emptyEnv "VERSION" "")) rt0 (get "/")).field "version"
      = some (JsonValue.str "blue") ∧
    (serve (fun _ => true) (start (setVar emptyEnv "VERSION" "")) rt0 (get "/health")).field
      "version" = some (JsonValue.str "blue") ∧
    (serve (fun _ => true) (start (setVar emptyEnv "VERSION" "")) rt0 (get "/version")).field
      "version" = some (JsonValue.str "blue") ∧
    (serve (fun _ => true) (start (setVar emptyEnv "VERSION" "")) rt0 (get "/version")).field
      "version" ≠ some (JsonValue.str "") := by
  decide

/-- C1 (amended): for every non-empty string `v` that `VERSION` is set to before
start, the responses of `GET /`, `GET /health` and `GET /version` each carry a
`version` field equal to exactly `v`. -/
theorem version_field_of_VERSION (jsonParse : String → Bool) (env : ProcessEnv)
    (rt : Runtime) (v : String) (hv : v ≠ "") (hset : env "VERSION" = some v) :
    (serve jsonParse (start env) rt (get "/")).field "version" = some (JsonValue.str v) ∧
    (serve jsonParse (start env) rt (get "/health")).field "version"
      = some (JsonValue.str v) ∧
    (serve jsonParse (start env) rt (get "/version")).field "version"
      = some (JsonValue.str v) := by
  have hV : (start env).version = v := VERSION_of_set env v hv hset
  rw [serve_root, serve_health, serve_version]
  refine ⟨?_, ?_, ?_⟩
  · show some (JsonValue.str (start env).version) = _
    rw [hV]
  · show some (JsonValue.str (start env).version) = _
    rw [hV]
  · show some (JsonValue.str (start env).version) = _
    rw [hV]

theorem version_field_of_VERSION_witness :
    (serve (fun _ => true) (start greenEnv) rt0 (get "/")).field "version"
      = some (JsonValue.str "green") ∧
    (serve (fun _ => true) (start greenEnv) rt0 (get "/health")).field "version"
      = some (JsonValue.str "green") ∧
    (serve (fun _ => true) (start greenEnv) rt0 (get "/version")).field "version"
      = some (JsonValue.str "green") :=
  version_field_of_VERSION (fun _ => true) greenEnv rt0 "green" (by decide) (by decide)

/-- C2, as stated, fails: with `BUILD_NUMBER` set to the empty string the routes
`/` and `/version` report the build `1`, not the empty string. -/
theorem build_field_empty_BUILD_NUMBER :
    (setVar emptyEnv "BUILD_NUMBER" "") "BUILD_NUMBER" = some "" ∧
    (serve (fun _ => true) (start (setVar emptyEnv "BUILD_NUMBER" "")) rt0 (get "/")).field
      "build" = some (JsonValue.str "1") ∧
    (serve (fun _ => true) (start (setVar emptyEnv "BUILD_NUMBER" "")) rt0 (get "/version")).field
      "build" = some (JsonValue.str "1") ∧
    (serve (fun _ => true) (start (setVar emptyEnv "BUILD_NUMBER" "")) rt0 (get "/version")).field
      "build" ≠ some (JsonValue.str "") := by
  decide

/-- C2 (amended): for every non-empty string `b` that `BUILD_NUMBER` is set to
before start, the responses of `GET /` and `GET /version` each carry a `build`
field equal to exactly `b`. -/
theorem build_field_of_BUILD_NUMBER (jsonParse : String → Bool) (env : ProcessEnv)
    (rt : Runtime) (b : String) (hb : b ≠ "") (hset : env "BUILD_NUMBER" = some b) :
    (serve jsonParse (start env) rt (get "/")).field "build" = some (JsonValue.str b) ∧
    (serve jsonParse (start env) rt (get "/version")).field "build"
      = some (JsonValue.str b) := by
  have hB : (start env).buildNumber = b := BUILD_NUMBER_of_set env b hb hset
  rw [serve_root, serve_version]
  refine ⟨?_, ?_⟩
  · show some (JsonValue.str (start env).buildNumber) = _
    rw [hB]
  · show some (JsonValue.str (start env).buildNumber) = _
    rw [hB]

theorem build_field_of_BUILD_NUMBER_witness :
    (serve (fun _ => true) (start greenEnv) rt0 (get "/")).field "build"
      = some (JsonValue.str "42") ∧
    (serve (fun _ => true) (start greenEnv) rt0 (get "/version")).field "build"
      = some (JsonValue.str "42") :=
  build_field_of_BUILD_NUMBER (fun _ => true) greenEnv rt0 "42" (by decide) (by decide)

/-- C3: when the environment sets none of `PORT`, `VERSION`, `BUILD_NUMBER`, the
configuration is port = the number 3000, version = `blue`, build number = `1`. -/
theorem start_defaults (env : ProcessEnv) (hP : env "PORT" = none)
    (hV : env "VERSION" = none) (hB : env "BUILD_NUMBER" = none) :
    (start env).port = PortValue.num 3000 ∧ (start env).version = "blue" ∧
    (start env).buildNumber = "1" := by
  simp [start, PORT, VERSION, BUILD_NUMBER, hP, hV, hB]

theorem start_defaults_witness :
    (start emptyEnv).port = PortValue.num 3000 ∧ (start emptyEnv).version = "blue" ∧
    (start emptyEnv).buildNumber = "1" :=
  start_defaults emptyEnv rfl rfl rfl

/-- C10: for every environment the configured version label and build number
are non-empty; a `VERSION`, `BUILD_NUMBER` or `PORT` set to the empty string
gives the same configuration as the variable unset, with the defaults `blue`,
`1` and 3000; and no response carries an empty `version` or `build` field. -/
theorem empty_variable_is_unset (env : ProcessEnv) :
    ((start env).version ≠ "" ∧ (start env).buildNumber ≠ "") ∧
    (start (setVar env "VERSION" "") = start (unsetVar env "VERSION") ∧
      (start (setVar env "VERSION" "")).version = "blue") ∧
    (start (setVar env "BUILD_NUMBER" "") = start (unsetVar env "BUILD_NUMBER") ∧
      (start (setVar env "BUILD_NUMBER" "")).buildNumber = "1") ∧
    (start (setVar env "PORT" "") = start (unsetVar env "PORT") ∧
      (start (setVar env "PORT" "")).port = PortValue.num 3000) ∧
    (∀ (jsonParse : String → Bool) (rt : Runtime) (req : Request),
      (serve jsonParse (start env) rt req).field "version" ≠ some (JsonValue.str "") ∧
      (serve jsonParse (start env) rt req).field "build" ≠ some (JsonValue.str "")) := by
  have hv : (start env).version ≠ "" := VERSION_ne_empty env
  have hb : (start env).buildNumber ≠ "" := BUILD_NUMBER_ne_empty env
  refine ⟨⟨hv, hb⟩, ⟨?_, ?_⟩, ⟨?_, ?_⟩, ⟨?_, ?_⟩, ?_⟩
  · simp [start, PORT, VERSION, BUILD_NUMBER, setVar, unsetVar, truthy]
  · simp [start, VERSION, setVar, truthy]
  · simp [start, PORT, VERSION, BUILD_NUMBER, setVar, unsetVar, truthy]
  · simp [start, BUILD_NUMBER, setVar, truthy]
  · simp [start, PORT, VERSION, BUILD_NUMBER, setVar, unsetVar, truthy]
  · simp [start, PORT, setVar, truthy]
  · intro jsonParse rt req
    unfold serve
    cases jsonParser jsonParse req with
    | some status => exact ⟨by simp [errorResponse, Response.field], by simp [errorResponse, Response.field]⟩
    | none =>
      simp only []
      split_ifs
      · exact ⟨fun h => hv (JsonValue.str.inj (Option.some.inj h)),
          fun h => hb (JsonValue.str.inj (Option.some.inj h))⟩
      · exact ⟨fun h => hv (JsonValue.str.inj (Option.some.inj h)),
          fun h => by simp [getHealth, resJson, Response.field] at h⟩
      · exact ⟨fun h => hv (JsonValue.str.inj (Option.some.inj h)),
          fun h => hb (JsonValue.str.inj (Option.some.inj h))⟩
      · exact ⟨by simp [errorResponse, Response.field], by simp [errorResponse, Response.field]⟩

/-! ## The three routes -/

/-- C5: for every environment `GET /version` answers with status 200 and a JSON
object with exactly the two fields `version` and `build`, holding the
configured version label and build number; with `VERSION=green` and
`BUILD_NUMBER=42` the body text is `{"version":"green","build":"42"}`. -/
theorem version_response (jsonParse : String → Bool) (env : ProcessEnv) (rt : Runtime) :
    (serve jsonParse (start env) rt (get "/version")).status = 200 ∧
    (serve jsonParse (start env) rt (get "/version")).body
      = Body.json [("version", JsonValue.str (start env).version),
          ("build", JsonValue.str (start env).buildNumber)] ∧
    (serve jsonParse (start env) rt (get "/version")).keys = ["version", "build"] ∧
    (env "VERSION" = some "green" → env "BUILD_NUMBER" = some "42" →
      ∀ render : ℚ → String,
        (serve jsonParse (start env) rt (get "/version")).text render
          = some "\x7b\"version\":\"green\",\"build\":\"42\"\x7d") := by
  refine ⟨rfl, rfl, rfl, ?_⟩
  intro hV hB render
  have h1 : (start env).version = "green" := VERSION_of_set env "green" (by decide) hV
  have h2 : (start env).buildNumber = "42" := BUILD_NUMBER_of_set env "42" (by decide) hB
  rw [serve_version]
  show some (stringify render [("version", JsonValue.str (start env).version),
    ("build", JsonValue.str (start env).buildNumber)]) = _
  rw [h1, h2]
  rfl

theorem version_response_witness :
    (serve (fun _ => true) (start greenEnv) rt0 (get "/version")).text (fun _ => "0")
      = some "\x7b\"version\":\"green\",\"build\":\"42\"\x7d" :=
  (version_response (fun _ => true) greenEnv rt0).2.2.2 (by decide) (by decide) (fun _ => "0")

/-- C6: for every environment and every uptime reading `u`, `GET /health`
answers with status 200 and a JSON object with exactly the fields `status`,
`version`, `uptime`, where status is `healthy`, version is the configured label
and uptime is `u`; when none of the three variables is set the body is
`{"status":"healthy","version":"blue","uptime":u}`. -/
theorem health_response (jsonParse : String → Bool) (env : ProcessEnv) (now hostname : String)
    (u : ℚ) :
    (serve jsonParse (start env) { now := now, hostname := hostname, uptime := u }
      (get "/health")).status = 200 ∧
    (serve jsonParse (start env) { now := now, hostname := hostname, uptime := u }
      (get "/health")).body
      = Body.json [("status", JsonValue.str "healthy"),
          ("version", JsonValue.str (start env).version), ("uptime", JsonValue.num u)] ∧
    (serve jsonParse (start env) { now := now, hostname := hostname, uptime := u }
      (get "/health")).keys = ["status", "version", "uptime"] ∧
    (env "PORT" = none → env "VERSION" = none → env "BUILD_NUMBER" = none →
      (serve jsonParse (start env) { now := now, hostname := hostname, uptime := u }
        (get "/health"))
        = { status := 200,
            body := Body.json [("status", JsonValue.str "healthy"),
              ("version", JsonValue.str "blue"), ("uptime", JsonValue.num u)] } ∧
      ∀ render : ℚ → String,
        (serve jsonParse (start env) { now := now, hostname := hostname, uptime := u }
          (get "/health")).text render
          = some ("\x7b\"status\":\"healthy\",\"version\":\"blue\",\"uptime\":"
              ++ render u ++ "\x7d")) := by
  refine ⟨rfl, rfl, rfl, ?_⟩
  intro hP hV hB
  rw [start_of_unset env hP hV hB]
  refine ⟨rfl, ?_⟩
  intro render
  rw [serve_health]
  show some (stringify render _) = _
  rw [stringify_health_blue]

theorem health_response_witness :
    (serve (fun _ => true) (start emptyEnv) { now := "", hostname := "pod-0", uptime := 5 }
        (get "/health"))
      = { status := 200,
          body := Body.json [("status", JsonValue.str "healthy"),
            ("version", JsonValue.str "blue"), ("uptime", JsonValue.num 5)] } :=
  ((health_response (fun _ => true) emptyEnv "" "pod-0" 5).2.2.2 rfl rfl rfl).1

/-! ## Routing -/

/-- C9: given a process uptime reading that is non-negative and does not
decrease from one call to the next, `GET /health` reports each reading
unchanged, so the `uptime` field is a non-negative number and the second call
reports at least what the first did. -/
theorem uptime_monotone (jsonParse : String → Bool) (cfg : Config) (rtA rtB : Runtime)
    (hpos : 0 ≤ rtA.uptime) (hmono : rtA.uptime ≤ rtB.uptime) :
    ∃ uA uB : ℚ,
      (serve jsonParse cfg rtA (get "/health")).field "uptime" = some (JsonValue.num uA) ∧
      (serve jsonParse cfg rtB (get "/health")).field "uptime" = some (JsonValue.num uB) ∧
      uA = rtA.uptime ∧ uB = rtB.uptime ∧ 0 ≤ uA ∧ 0 ≤ uB ∧ uA ≤ uB :=
  ⟨rtA.uptime, rtB.uptime, rfl, rfl, rfl, rfl, hpos, le_trans hpos hmono, hmono⟩

theorem uptime_monotone_witness :
    ∃ uA uB : ℚ,
      (serve (fun _ => true) (start emptyEnv) rt0 (get "/health")).field "uptime"
        = some (JsonValue.num uA) ∧
      (serve (fun _ => true) (start emptyEnv) rt1 (get "/health")).field "uptime"
        = some (JsonValue.num uB) ∧
      uA = rt0.uptime ∧ uB = rt1.uptime ∧ 0 ≤ uA ∧ 0 ≤ uB ∧ uA ≤ uB :=
  uptime_monotone (fun _ => true) (start emptyEnv) rt0 rt1 (by norm_num [rt0])
    (by norm_num [rt0, rt1])

end Server
